import Mathlib

/-!
Shallow embedding of `server.py` (levonoteserver).

This file embeds the note/reminder logic of `src/server.py` in Lean and
proves or refutes the specification's claims about it.

Modelling conventions:

* Timestamps are integers (`Time := Int`, seconds, UTC).  `timedelta(days=1)`
  is `oneDay = 86400`.
* The value held by the `reminder_datetime` attribute is modelled by `RDT`:
  Python `None`, a datetime, or — because line 164 of `server.py` ends with a
  stray trailing comma — a one-element Python tuple wrapping a datetime or
  `None`.  A non-empty tuple is truthy in Python, `None` is falsy; `RDT.truthy`
  captures this.
* `request.json` payloads are records of `Option` fields: `some v` means the
  key is present with a truthy parseable value, `none` means the key is absent
  (or falsy, which `data.get(...)`-guarded branches treat identically).
* The note store is a `List Note`; `Note.query.get` is `getNote` (first match
  by id), a committed mutation of a loaded row is `setNote` (replace by id).
  SQLAlchemy's `onupdate=datetime.utcnow` refresh of `updated_at` is modelled
  by stamping `now` on every committed update.  We model the in-process value
  semantics of the handlers; the relational binding layer is not modelled
  (committing a tuple into a DateTime column would in reality raise at flush).
* The APScheduler job table is a `List Job`.  `add_job` follows the library's
  interface as invoked by the code: the `date` trigger accepts only a datetime
  `run_date` (a tuple is rejected), and a job whose `id` already exists is
  rejected (`ConflictingIdError`) because the code never passes
  `replace_existing=True`.
* The mail transport is an oracle `sendOk : Bool` per dispatch: `true` means
  `mail.send` returns, `false` means it raises; the `except` clause swallows
  the exception, so dispatch is a total function either way.
-/

namespace LevoNote

/-- Timestamps (UTC), as integers. -/
abbrev Time := Int

/-- The recovery-sweep lookback, `timedelta(days=1)`. -/
def oneDay : Time := 86400

/-- The value stored in a note's `reminder_datetime` attribute: SQL `NULL`,
a datetime, or — via the trailing comma on line 164 — a one-element Python
tuple wrapping a parsed datetime or `None`. -/
inductive RDT where
  | null : RDT
  | dt : Time → RDT
  | tup : Option Time → RDT
deriving DecidableEq, Repr

/-- Python truthiness of an `RDT` value: `None` is falsy, a datetime is
truthy, and a one-element tuple is truthy (even `(None,)`). -/
def RDT.truthy : RDT → Bool
  | .null => false
  | .dt _ => true
  | .tup _ => true

/-- Python truthiness of an optional string (`None` and `""` are falsy). -/
def strTruthy : Option String → Bool
  | none => false
  | some s => !s.isEmpty

/-- The `Note` model of `server.py` (lines 42-53). -/
structure Note where
  id : Nat
  title : String
  content : String
  is_pinned : Bool
  has_reminder : Bool
  reminder_datetime : RDT
  reminder_email : Option String
  created_at : Time
  updated_at : Time
  is_archived : Bool
  is_trashed : Bool
deriving DecidableEq, Repr

/-- Lookup `Note.query.get(note_id)`: first record with the given primary key. -/
def getNote (store : List Note) (note_id : Nat) : Option Note :=
  store.find? (fun n => n.id == note_id)

/-- Committing a mutation of a loaded row: replace the record with that id. -/
def setNote (store : List Note) (n : Note) : List Note :=
  store.map (fun m => if m.id == n.id then n else m)

/-- A flask-mail `Message` as constructed on lines 61-65. -/
structure EmailMsg where
  subject : String
  recipients : List String
  body : String
deriving DecidableEq, Repr

/-- Log levels of `app.logger` calls. -/
inductive LogLevel where
  | info | warning | error
deriving DecidableEq, Repr

/-- One `app.logger` entry. -/
structure LogEntry where
  level : LogLevel
  msg : String
deriving DecidableEq, Repr

/-- Result of one `send_reminder_email` invocation: the store after it
returns, the message delivered to the transport (if the send succeeded),
and the log entries written. -/
structure DispatchResult where
  store : List Note
  sent : Option EmailMsg
  log : List LogEntry
deriving DecidableEq, Repr

/-- Dispatch, `send_reminder_email(note_id)` (lines 56-76).  `sendOk` is the transport
oracle: `true` iff `mail.send` returns normally.  The function is total: a
transport exception is caught by the `except` clause (lines 73-74), so no
error escapes to any caller. -/
def send_reminder_email (now : Time) (store : List Note) (note_id : Nat)
    (sendOk : Bool) : DispatchResult :=
  match getNote store note_id with
  | some note =>
    if note.has_reminder && strTruthy note.reminder_email then
      let msg : EmailMsg :=
        { subject := "Reminder: " ++ note.title
          recipients := [note.reminder_email.getD ""]
          body := note.content }
      if sendOk then
        -- lines 66-72: send, log, clear the reminder, commit
        let note' := { note with
          has_reminder := false
          reminder_datetime := RDT.null
          updated_at := now }
        { store := setNote store note'
          sent := some msg
          log := [⟨.info, "Reminder email sent for note"⟩] }
      else
        -- lines 73-74: exception caught and logged, nothing committed
        { store := store
          sent := none
          log := [⟨.error, "Failed to send reminder email for note"⟩] }
    else
      { store := store, sent := none
        log := [⟨.warning, "Attempted to send reminder for non-existent or invalid note"⟩] }
  | none =>
    { store := store, sent := none
      log := [⟨.warning, "Attempted to send reminder for non-existent or invalid note"⟩] }

/-- The SQL filter of `check_missed_reminders` (lines 81-85):
`has_reminder == True AND reminder_datetime <= now AND
reminder_datetime > now - timedelta(days=1)`.  Only an actual datetime
participates in a SQL comparison; `NULL` satisfies neither bound. -/
def missedFilter (now : Time) (n : Note) : Bool :=
  n.has_reminder &&
    (match n.reminder_datetime with
     | .dt t => decide (t ≤ now) && decide (now - oneDay < t)
     | _ => false)

/-- The recovery sweep `check_missed_reminders()` (lines 78-89): query once, then dispatch each
match in store order.  Returns the final store and the list of note ids
dispatched.  `sendOk` gives the transport outcome per note id. -/
def check_missed_reminders (now : Time) (sendOk : Nat → Bool)
    (store : List Note) : List Note × List Nat :=
  let missed := store.filter (missedFilter now)
  (missed.foldl (fun s n => (send_reminder_email now s n.id (sendOk n.id)).store) store,
   missed.map (fun n => n.id))

/-- The `PUT /notes/<id>` JSON payload (`request.json` in `update_note`).
Each field is `some v` iff the key is present (with, for
`reminder_datetime`, a truthy ISO string parsing to `v`).  The
`reminder_email` key can be present in a request, but line 165 of the
handler never reads it — it reads the key `email`. -/
structure UpdatePayload where
  title : Option String := none
  content : Option String := none
  is_pinned : Option Bool := none
  is_archived : Option Bool := none
  is_trashed : Option Bool := none
  has_reminder : Option Bool := none
  reminder_datetime : Option Time := none
  email : Option String := none
  reminder_email : Option String := none
deriving DecidableEq, Repr

/-- The field assignments of `update_note` (lines 158-165) plus the
`updated_at` refresh at commit (line 167).  Line 164 ends with a trailing
comma, so `reminder_datetime` always receives a one-element tuple:
`(parsed_datetime,)` when the key is present and truthy, `(None,)`
otherwise.  Line 165 reads the payload key `email`, not `reminder_email`. -/
def update_note (now : Time) (note : Note) (data : UpdatePayload) : Note :=
  { note with
    title := data.title.getD note.title
    content := data.content.getD note.content
    is_pinned := data.is_pinned.getD note.is_pinned
    is_archived := data.is_archived.getD note.is_archived
    is_trashed := data.is_trashed.getD note.is_trashed
    has_reminder := data.has_reminder.getD note.has_reminder
    reminder_datetime := RDT.tup data.reminder_datetime
    reminder_email := match data.email with
      | some e => some e
      | none => note.reminder_email
    updated_at := now }

/-- The `POST /notes` JSON payload consumed by `create_note`
(lines 112-122). -/
structure CreatePayload where
  title : String
  content : String
  is_pinned : Option Bool := none
  has_reminder : Option Bool := none
  reminder_datetime : Option Time := none
  reminder_email : Option String := none
  is_archived : Option Bool := none
  is_trashed : Option Bool := none
deriving DecidableEq, Repr

/-- The `Note(...)` construction of `create_note` (lines 113-122): here the
conditional expression has no trailing comma, so `reminder_datetime` is a
real datetime or `None`. -/
def create_note (id : Nat) (now : Time) (data : CreatePayload) : Note :=
  { id := id
    title := data.title
    content := data.content
    is_pinned := data.is_pinned.getD false
    has_reminder := data.has_reminder.getD false
    reminder_datetime := match data.reminder_datetime with
      | some t => RDT.dt t
      | none => RDT.null
    reminder_email := data.reminder_email
    created_at := now
    updated_at := now
    is_archived := data.is_archived.getD false
    is_trashed := data.is_trashed.getD false }

/-- A pending APScheduler job as registered by the handlers: the derived key
`"reminder_" + note.id`, the `run_date` argument (which, after an update,
is the tuple-valued `note.reminder_datetime`), and the dispatch argument. -/
structure Job where
  key : String
  runDate : RDT
  noteId : Nat
deriving DecidableEq, Repr

/-- Why an `add_job` call raises. -/
inductive AddJobError where
  | invalidRunDate : AddJobError
  | conflictingId : AddJobError
deriving DecidableEq, Repr

/-- The call `scheduler.add_job(id=..., trigger='date', run_date=..., ...)` as invoked
by the handlers.  The `date` trigger accepts only a datetime `run_date`
(a tuple raises while the trigger is built); and since the code never passes
`replace_existing=True`, a job whose id is already present raises
`ConflictingIdError` instead of replacing the existing timer. -/
def add_job (jobs : List Job) (j : Job) : Except AddJobError (List Job) :=
  match j.runDate with
  | .dt _ =>
    if jobs.any (fun k => k.key == j.key) then .error .conflictingId
    else .ok (jobs ++ [j])
  | _ => .error .invalidRunDate

/-- The derived scheduler key for a note (lines 129 and 172). -/
def reminderKey (id : Nat) : String :=
  "reminder_" ++ toString id

/-- The `POST /notes` handler (lines 110-151): build the note, commit it,
then (lines 127-134) schedule a timer iff `has_reminder` and
`reminder_datetime` are truthy.  Returns the new store and the outcome of
the scheduling call. -/
def create_note_flow (id : Nat) (now : Time) (store : List Note)
    (jobs : List Job) (data : CreatePayload) :
    List Note × Except AddJobError (List Job) :=
  let n := create_note id now data
  let store' := store ++ [n]
  if n.has_reminder && n.reminder_datetime.truthy then
    (store', add_job jobs ⟨reminderKey n.id, n.reminder_datetime, n.id⟩)
  else
    (store', .ok jobs)

/-- The `PUT /notes/<id>` handler (lines 153-194): 404 when the note is
absent (`none`); otherwise apply the field assignments, commit, then
(lines 169-177) schedule a timer iff `has_reminder` and the (tuple-valued)
`reminder_datetime` are truthy. -/
def update_note_flow (now : Time) (store : List Note) (jobs : List Job)
    (note_id : Nat) (data : UpdatePayload) :
    Option (List Note × Except AddJobError (List Job)) :=
  match getNote store note_id with
  | none => none
  | some note =>
    let note' := update_note now note data
    let store' := setNote store note'
    if note'.has_reminder && note'.reminder_datetime.truthy then
      some (store', add_job jobs ⟨reminderKey note'.id, note'.reminder_datetime, note'.id⟩)
    else
      some (store', .ok jobs)

/-- The `DELETE /notes/<id>` handler (lines 196-203): trash the note.  It
touches only the three lifecycle flags (plus `updated_at` at commit) and
never calls the scheduler. -/
def delete_note (now : Time) (note : Note) : Note :=
  { note with
    is_archived := false
    is_pinned := false
    is_trashed := true
    updated_at := now }

/-- The `PUT /notes/<id>/archive` handler (lines 205-212). -/
def archive_note (now : Time) (note : Note) : Note :=
  { note with
    is_pinned := false
    is_trashed := false
    is_archived := true
    updated_at := now }

/-- The handler `DELETE /notes/<id>` at the store level: 404 when absent; otherwise
commit the trashed note.  The job table is returned untouched because the
handler contains no scheduler call. -/
def delete_note_flow (now : Time) (store : List Note) (jobs : List Job)
    (note_id : Nat) : Option (List Note × List Job) :=
  match getNote store note_id with
  | none => none
  | some note => some (setNote store (delete_note now note), jobs)

/-- The handler `PUT /notes/<id>/archive` at the store level. -/
def archive_note_flow (now : Time) (store : List Note) (jobs : List Job)
    (note_id : Nat) : Option (List Note × List Job) :=
  match getNote store note_id with
  | none => none
  | some note => some (setNote store (archive_note now note), jobs)

/-- The `GET /reminders` handler's query (line 236):
`filter_by(has_reminder=True, is_archived=False, is_trashed=False)`.
Note that neither `reminder_datetime` nor `reminder_email` is consulted. -/
def get_reminders (store : List Note) : List Note :=
  store.filter (fun n => n.has_reminder && !n.is_archived && !n.is_trashed)

end LevoNote

namespace LevoNote

/-! Helper lemmas about the store. -/

/-- After committing an updated row `n'` whose id matches the looked-up
row `n`, a fresh lookup returns `n'`. -/
theorem getNote_setNote (store : List Note) (note_id : Nat) (n n' : Note)
    (h : getNote store note_id = some n) (hid : n'.id = n.id) :
    getNote (setNote store n') note_id = some n' := by
  have h' : store.find? (fun m => m.id == note_id) = some n := h
  have hn : (n.id == note_id) = true := by
    have h2 := List.find?_some h'
    exact h2
  have hn2 : n.id = note_id := by simpa using hn
  have hn' : n'.id = note_id := by rw [hid]; exact hn2
  unfold getNote setNote
  rw [List.find?_map]
  have hfun : ((fun x : Note => x.id == note_id) ∘
      fun m : Note => if m.id == n'.id then n' else m) =
      fun m : Note => m.id == note_id := by
    funext m
    by_cases hm : m.id = n'.id
    · simp [Function.comp, hm, hn']
    · simp [Function.comp, hm]
  rw [hfun, h']
  simp [hid, hn2]

/-- The recovery-sweep filter holds exactly when `has_reminder` is set and
the stored value is an actual datetime within the half-open window
`(now - oneDay, now]`. -/
theorem missedFilter_iff (now : Time) (n : Note) :
    missedFilter now n = true ↔
      n.has_reminder = true ∧
        ∃ t, n.reminder_datetime = RDT.dt t ∧ t ≤ now ∧ now - oneDay < t := by
  unfold missedFilter
  cases h : n.reminder_datetime with
  | null => simp [h]
  | dt t =>
    simp only [h, Bool.and_eq_true, decide_eq_true_eq, RDT.dt.injEq]
    constructor
    · rintro ⟨h1, h2, h3⟩
      exact ⟨h1, t, rfl, h2, h3⟩
    · rintro ⟨h1, t', ht', h2, h3⟩
      cases ht'
      exact ⟨h1, h2, h3⟩
  | tup o => simp [h]

/-! Concrete fixtures used by witnesses and counterexamples. -/

/-- An active note with an armed reminder. -/
def noteArmed : Note :=
  ⟨1, "Pay rent", "due today", false, true, RDT.dt 100, some "a@b.com", 0, 0, false, false⟩

/-- An active note with `has_reminder = true` but `NULL` datetime and email. -/
def noteBare : Note :=
  ⟨3, "x", "y", false, true, RDT.null, none, 0, 0, false, false⟩

/-- A note whose reminder matured two hours ago (within the 24h lookback). -/
def noteRecent : Note :=
  ⟨1, "a", "b", false, true, RDT.dt (-7200), some "a@b.com", 0, 0, false, false⟩

/-- A note whose reminder matured thirty hours ago (outside the lookback). -/
def noteStale : Note :=
  ⟨2, "c", "d", false, true, RDT.dt (-108000), some "a@b.com", 0, 0, false, false⟩

/-! Claim theorems. -/

/-- Claim C4: for every note with `has_reminder = true` and a non-empty
`reminder_email`, when dispatch's notification send succeeds, the message is
handed to the transport and the persisted note afterwards has
`has_reminder = false` and `reminder_datetime = NULL`, so a subsequent get
observes the reminder cleared. -/
theorem dispatch_success_clears_reminder (now : Time) (store : List Note)
    (note_id : Nat) (note : Note)
    (h : getNote store note_id = some note)
    (hr : note.has_reminder = true)
    (he : strTruthy note.reminder_email = true) :
    (send_reminder_email now store note_id true).sent =
      some ⟨"Reminder: " ++ note.title, [note.reminder_email.getD ""], note.content⟩ ∧
    ∃ note', getNote (send_reminder_email now store note_id true).store note_id = some note' ∧
      note'.has_reminder = false ∧ note'.reminder_datetime = RDT.null := by
  unfold send_reminder_email
  rw [h]
  simp only [hr, he, Bool.and_self, if_true]
  exact ⟨trivial, _, getNote_setNote store note_id note _ h rfl, rfl, rfl⟩

/-- Witness for C4 at a concrete armed note. -/
theorem dispatch_success_clears_reminder_witness :
    (send_reminder_email 5 [noteArmed] 1 true).sent =
      some ⟨"Reminder: " ++ noteArmed.title, [noteArmed.reminder_email.getD ""], noteArmed.content⟩ ∧
    ∃ note', getNote (send_reminder_email 5 [noteArmed] 1 true).store 1 = some note' ∧
      note'.has_reminder = false ∧ note'.reminder_datetime = RDT.null :=
  dispatch_success_clears_reminder 5 [noteArmed] 1 noteArmed (by decide) (by decide) (by decide)

/-- Claim C5: for every armed note, if the notification transport raises
during dispatch, the stored state is left completely untouched (the whole
store is returned unchanged, so `has_reminder`, `reminder_datetime` and
`reminder_email` keep their values), nothing is delivered, and the failure is
logged at error level; the handler catches the exception, so no error reaches
any caller. -/
theorem dispatch_failure_keeps_state (now : Time) (store : List Note)
    (note_id : Nat) (note : Note)
    (h : getNote store note_id = some note)
    (hr : note.has_reminder = true)
    (he : strTruthy note.reminder_email = true) :
    (send_reminder_email now store note_id false).store = store ∧
    (send_reminder_email now store note_id false).sent = none ∧
    (send_reminder_email now store note_id false).log =
      [⟨LogLevel.error, "Failed to send reminder email for note"⟩] := by
  unfold send_reminder_email
  rw [h]
  simp [hr, he]

/-- Witness for C5 at a concrete armed note. -/
theorem dispatch_failure_keeps_state_witness :
    (send_reminder_email 5 [noteArmed] 1 false).store = [noteArmed] ∧
    (send_reminder_email 5 [noteArmed] 1 false).sent = none ∧
    (send_reminder_email 5 [noteArmed] 1 false).log =
      [⟨LogLevel.error, "Failed to send reminder email for note"⟩] :=
  dispatch_failure_keeps_state 5 [noteArmed] 1 noteArmed (by decide) (by decide) (by decide)

/-- Claim C8: whenever the note is absent, or `has_reminder` is false, or
`reminder_email` is null or empty, dispatch sends no notification and changes
no stored state, logging a warning instead — a no-op, not a failure —
whatever the transport would have done. -/
theorem dispatch_noop (now : Time) (store : List Note) (note_id : Nat)
    (sendOk : Bool)
    (h : getNote store note_id = none ∨
      ∃ n, getNote store note_id = some n ∧
        (n.has_reminder = false ∨ strTruthy n.reminder_email = false)) :
    (send_reminder_email now store note_id sendOk).store = store ∧
    (send_reminder_email now store note_id sendOk).sent = none ∧
    (send_reminder_email now store note_id sendOk).log =
      [⟨LogLevel.warning, "Attempted to send reminder for non-existent or invalid note"⟩] := by
  unfold send_reminder_email
  rcases h with h | ⟨n, h, hn⟩
  · rw [h]
    exact ⟨rfl, rfl, rfl⟩
  · rw [h]
    rcases hn with hn | hn <;> simp [hn]

/-- Witness for C8: dispatch against an id absent from the store. -/
theorem dispatch_noop_witness :
    (send_reminder_email 5 [noteArmed] 99 true).store = [noteArmed] ∧
    (send_reminder_email 5 [noteArmed] 99 true).sent = none ∧
    (send_reminder_email 5 [noteArmed] 99 true).log =
      [⟨LogLevel.warning, "Attempted to send reminder for non-existent or invalid note"⟩] :=
  dispatch_noop 5 [noteArmed] 99 true (Or.inl (by decide))

/-- Claim C10: the update handler reads the reminder recipient from the JSON
key `email`, not `reminder_email`: a payload carrying `reminder_email` (any
value) but no `email` key leaves the stored `reminder_email` unchanged, and a
payload carrying `email` sets it to that value. -/
theorem update_reads_email_key (now : Time) (note : Note) (data : UpdatePayload)
    (h : data.email = none) :
    (update_note now note data).reminder_email = note.reminder_email ∧
    ∀ e, (update_note now note { data with email := some e }).reminder_email = some e := by
  constructor
  · unfold update_note
    rw [h]
  · intro e
    rfl

/-- Witness for C10: a payload whose `reminder_email` key is set but whose
`email` key is absent leaves the stored recipient alone. -/
theorem update_reads_email_key_witness :
    (update_note 5 noteArmed { reminder_email := some "new@b.com" }).reminder_email =
      noteArmed.reminder_email ∧
    ∀ e, (update_note 5 noteArmed
      { UpdatePayload.mk none none none none none none none (some e) (some "new@b.com") with
        email := some e }).reminder_email = some e :=
  update_reads_email_key 5 noteArmed { reminder_email := some "new@b.com" } rfl

end LevoNote

namespace LevoNote

/-- Claim C7 counterexample: an active note with `has_reminder = true` but
`NULL` `reminder_datetime` and `NULL` `reminder_email` — armed by none of the
spec's criteria beyond the flag — is nevertheless returned by
`GET /reminders`. -/
theorem get_reminders_unarmed_cex :
    noteBare.has_reminder = true ∧ noteBare.reminder_datetime = RDT.null ∧
    noteBare.reminder_email = none ∧ noteBare.is_archived = false ∧
    noteBare.is_trashed = false ∧ noteBare ∈ get_reminders [noteBare] := by
  decide

/-- Claim C7 (amended): `GET /reminders` returns exactly the notes of the
store that are not archived, not trashed and have `has_reminder = true`;
neither `reminder_datetime` nor `reminder_email` is consulted by the query. -/
theorem get_reminders_spec (store : List Note) (n : Note) :
    n ∈ get_reminders store ↔
      n ∈ store ∧ n.has_reminder = true ∧ n.is_archived = false ∧
        n.is_trashed = false := by
  simp [get_reminders, List.mem_filter, and_assoc]

/-- Claim C3 counterexample: after a generic update (empty payload) of an
armed active note, the reminder is not disabled — `has_reminder` is still
true, `GET /reminders` still lists the note, and dispatch still sends. -/
theorem update_not_disabling_cex :
    (update_note 5 noteArmed {}).has_reminder = true ∧
    get_reminders [update_note 5 noteArmed {}] = [update_note 5 noteArmed {}] ∧
    (send_reminder_email 6 [update_note 5 noteArmed {}] 1 true).sent ≠ none := by
  decide

/-- Claim C3 (amended): the update handler's reminder-time assignment always
stores a tuple-wrapped value — never a datetime and never `NULL` — because of
the stray trailing comma; but this does not disable the reminder: a
one-element tuple is truthy, `has_reminder` is governed solely by its own
payload key, and dispatch, which never inspects `reminder_datetime`, still
sends for the updated note whenever it is armed. -/
theorem update_reminder_tuple_not_disabling (now now' : Time) (note : Note)
    (data : UpdatePayload) :
    (update_note now note data).reminder_datetime = RDT.tup data.reminder_datetime ∧
    (∀ t, (update_note now note data).reminder_datetime ≠ RDT.dt t) ∧
    (update_note now note data).reminder_datetime ≠ RDT.null ∧
    (data.has_reminder = none →
      (update_note now note data).has_reminder = note.has_reminder) ∧
    ((update_note now note data).has_reminder = true →
      strTruthy (update_note now note data).reminder_email = true →
      (send_reminder_email now' [update_note now note data]
        (update_note now note data).id true).sent ≠ none) := by
  refine ⟨rfl, ?_, ?_, ?_, ?_⟩
  · intro t ht
    simp [update_note] at ht
  · intro ht
    simp [update_note] at ht
  · intro h
    simp [update_note, h]
  · intro h1 h2
    unfold send_reminder_email
    have hg : getNote [update_note now note data] (update_note now note data).id =
        some (update_note now note data) := by
      simp [getNote, List.find?]
    rw [hg]
    simp [h1, h2]

/-- Witness for the amended C3: the empty payload on a concrete armed note
yields the tuple `(None,)` and a dispatch that still sends. -/
theorem update_reminder_tuple_not_disabling_witness :
    (update_note 5 noteArmed {}).reminder_datetime = RDT.tup none ∧
    (send_reminder_email 6 [update_note 5 noteArmed {}]
      (update_note 5 noteArmed {}).id true).sent ≠ none :=
  ⟨(update_reminder_tuple_not_disabling 5 6 noteArmed {}).1,
   (update_reminder_tuple_not_disabling 5 6 noteArmed {}).2.2.2.2 (by decide) (by decide)⟩

/-- Claim C2, evaluated at its failing input: updating an armed note with an
empty payload overwrites the stored `reminder_datetime` with the tuple
`(None,)` instead of leaving it unchanged; and a payload carrying only the
`reminder_email` key does not change the stored recipient (the handler reads
`email`). -/
theorem update_empty_payload_clobbers_datetime :
    (update_note 5 noteArmed {}).reminder_datetime = RDT.tup none ∧
    (update_note 5 noteArmed {}).reminder_datetime ≠ noteArmed.reminder_datetime ∧
    (update_note 5 noteArmed { reminder_email := some "n@b.com" }).reminder_email
      = noteArmed.reminder_email := by
  decide

/-- Claim C6: the startup recovery sweep dispatches exactly the notes with
`has_reminder = true` whose `reminder_datetime` is an actual datetime `t`
with `now - 24h < t ≤ now`; in particular a reminder older than the 24-hour
lookback is skipped. -/
theorem check_missed_reminders_spec (now : Time) (sendOk : Nat → Bool)
    (store : List Note) (hids : (store.map (fun n => n.id)).Nodup)
    (n : Note) (hn : n ∈ store) :
    n.id ∈ (check_missed_reminders now sendOk store).2 ↔
      n.has_reminder = true ∧
        ∃ t, n.reminder_datetime = RDT.dt t ∧ t ≤ now ∧ now - oneDay < t := by
  rw [← missedFilter_iff]
  show n.id ∈ (store.filter (missedFilter now)).map (fun m => m.id) ↔ _
  simp only [List.mem_map, List.mem_filter]
  constructor
  · rintro ⟨m, ⟨hm_mem, hm_f⟩, hm_id⟩
    have hmn : m = n := List.inj_on_of_nodup_map hids hm_mem hn hm_id
    rw [← hmn]
    exact hm_f
  · intro hf
    exact ⟨n, ⟨hn, hf⟩, rfl⟩

/-- Witness for C6, mirroring the spec's example: with `now = 0`, a reminder
two hours overdue is dispatched and one thirty hours overdue is skipped. -/
theorem check_missed_reminders_spec_witness :
    noteRecent.id ∈ (check_missed_reminders 0 (fun _ => true) [noteRecent, noteStale]).2 ∧
    noteStale.id ∉ (check_missed_reminders 0 (fun _ => true) [noteRecent, noteStale]).2 := by
  constructor
  · exact (check_missed_reminders_spec 0 (fun _ => true) [noteRecent, noteStale]
      (by decide) noteRecent (by decide)).mpr ⟨rfl, -7200, rfl, by decide, by decide⟩
  · intro hmem
    obtain ⟨-, t, ht, h1, h2⟩ := (check_missed_reminders_spec 0 (fun _ => true)
      [noteRecent, noteStale] (by decide) noteStale (by decide)).mp hmem
    have ht' : RDT.dt (-108000) = RDT.dt t := ht
    injection ht' with h3
    rw [← h3] at h2
    exact absurd h2 (by decide)

end LevoNote

namespace LevoNote

/-- Claim C9: trashing or archiving a note leaves `has_reminder`,
`reminder_datetime` and `reminder_email` unchanged; neither handler touches
the scheduler's job table; and dispatch — which never inspects `is_trashed`
or `is_archived` — on any armed note (in particular a trashed or archived
one) still sends the notification and clears the reminder. -/
theorem trash_archive_keep_reminder (now now' : Time) (note : Note) :
    ((delete_note now note).has_reminder = note.has_reminder ∧
     (delete_note now note).reminder_datetime = note.reminder_datetime ∧
     (delete_note now note).reminder_email = note.reminder_email ∧
     (archive_note now note).has_reminder = note.has_reminder ∧
     (archive_note now note).reminder_datetime = note.reminder_datetime ∧
     (archive_note now note).reminder_email = note.reminder_email) ∧
    (∀ store jobs note_id out,
      delete_note_flow now store jobs note_id = some out → out.2 = jobs) ∧
    (∀ store jobs note_id out,
      archive_note_flow now store jobs note_id = some out → out.2 = jobs) ∧
    (∀ n : Note, n.has_reminder = true → strTruthy n.reminder_email = true →
      (send_reminder_email now' [n] n.id true).sent ≠ none ∧
      ∃ m, getNote (send_reminder_email now' [n] n.id true).store n.id = some m ∧
        m.has_reminder = false ∧ m.reminder_datetime = RDT.null) := by
  refine ⟨⟨rfl, rfl, rfl, rfl, rfl, rfl⟩, ?_, ?_, ?_⟩
  · intro store jobs note_id out h
    unfold delete_note_flow at h
    cases hg : getNote store note_id with
    | none => rw [hg] at h; exact absurd h (by simp)
    | some n0 =>
      rw [hg] at h
      injection h with h2
      rw [← h2]
  · intro store jobs note_id out h
    unfold archive_note_flow at h
    cases hg : getNote store note_id with
    | none => rw [hg] at h; exact absurd h (by simp)
    | some n0 =>
      rw [hg] at h
      injection h with h2
      rw [← h2]
  · intro n h1 h2
    have hg : getNote [n] n.id = some n := by simp [getNote, List.find?]
    unfold send_reminder_email
    rw [hg]
    simp only [h1, h2, Bool.and_self, if_true]
    exact ⟨by simp, _, getNote_setNote [n] n.id n _ hg rfl, rfl, rfl⟩

/-- Witness for C9: trashing a concrete armed note keeps it armed, and
dispatch on the trashed note still sends. -/
theorem trash_archive_keep_reminder_witness :
    (delete_note 5 noteArmed).has_reminder = noteArmed.has_reminder ∧
    (delete_note 5 noteArmed).is_trashed = true ∧
    (send_reminder_email 6 [delete_note 5 noteArmed]
      (delete_note 5 noteArmed).id true).sent ≠ none :=
  ⟨(trash_archive_keep_reminder 5 6 noteArmed).1.1,
   by decide,
   ((trash_archive_keep_reminder 5 6 noteArmed).2.2.2 (delete_note 5 noteArmed)
     (by decide) (by decide)).1⟩

/-- The POST payload of the C1 scenario: a note with a reminder armed for
time 100. -/
def c1Create : CreatePayload :=
  { title := "t", content := "c", has_reminder := some true,
    reminder_datetime := some 100, reminder_email := some "a@b.com" }

/-- The PUT payload of the C1 scenario: re-arm the same note's reminder for
the later time 200. -/
def c1Update : UpdatePayload :=
  { has_reminder := some true, reminder_datetime := some 200,
    email := some "a@b.com" }

/-- Claim C1, evaluated at its failing input: creating note 1 with a reminder
at time 100 registers the timer keyed `reminder_1`; the subsequent update
re-arming the reminder at time 200 does not supersede that timer — its
`add_job` call passes the tuple-wrapped `reminder_datetime` as `run_date`,
which the `date` trigger rejects — and even a well-formed `add_job` for the
same key would raise `ConflictingIdError` because `replace_existing` is never
passed.  Either way the job table still holds only the original timer for
time 100, not one for the later time. -/
theorem schedule_again_does_not_supersede :
    (create_note_flow 1 0 [] [] c1Create).2 =
      Except.ok [⟨reminderKey 1, RDT.dt 100, 1⟩] ∧
    (update_note_flow 5 (create_note_flow 1 0 [] [] c1Create).1
        [⟨reminderKey 1, RDT.dt 100, 1⟩] 1 c1Update).map Prod.snd =
      some (Except.error AddJobError.invalidRunDate) ∧
    add_job [⟨reminderKey 1, RDT.dt 100, 1⟩] ⟨reminderKey 1, RDT.dt 200, 1⟩ =
      Except.error AddJobError.conflictingId := by
  refine ⟨?_, ?_, ?_⟩ <;> rfl

end LevoNote
